import Mathlib

/-!
Verification of the recurrence/rescheduling engine of a message-scheduling
bot (sources: `scheduler_logic.py`, `shared/database.py`, `telegram_bot.py`,
`config.py`).

The Python `datetime.datetime` (naive) is embedded as a record of calendar
fields plus a seconds-of-day component; comparison of datetimes is, as in
CPython, lexicographic on the field tuple, and adding `timedelta(days=k)`
is the k-fold calendar-day successor in the proleptic Gregorian calendar.
Year bounds (Python's MINYEAR/MAXYEAR) are abstracted away: years range
over all naturals.

The SQLite store is embedded as a list of task rows; the SQL `UPDATE`
statements become maps over the list guarded by their `WHERE` clauses, and
a statement's `rowcount > 0` becomes `List.any` of the `WHERE` predicate.
ISO-formatted timestamps stored as TEXT are kept as datetimes: for the
fixed zero-padded format used throughout, string comparison and datetime
comparison agree.
-/

/-! ### Data model and operations -/

/-- A naive `datetime.datetime`: calendar fields plus seconds-of-day
(`tod` packs hour, minute, second; the claims never split it). -/
structure DateTime where
  year : Nat
  month : Nat
  day : Nat
  tod : Nat
deriving DecidableEq, Repr

/-- CPython compares naive datetimes lexicographically on their fields. -/
def DateTime.lt (a b : DateTime) : Prop :=
  a.year < b.year ∨ (a.year = b.year ∧
    (a.month < b.month ∨ (a.month = b.month ∧
      (a.day < b.day ∨ (a.day = b.day ∧ a.tod < b.tod)))))

instance (a b : DateTime) : Decidable (DateTime.lt a b) := by
  unfold DateTime.lt; infer_instance

def DateTime.le (a b : DateTime) : Prop :=
  DateTime.lt a b ∨ a = b

instance (a b : DateTime) : Decidable (DateTime.le a b) := by
  unfold DateTime.le; infer_instance

/-- Leap-year test as written in `next_recurrence_time`:
`(year % 4 == 0 and year % 100 != 0) or (year % 400 == 0)`. -/
def isLeap (y : Nat) : Bool :=
  (y % 4 == 0 && y % 100 != 0) || (y % 400 == 0)

/-- The month-length table
`[31, 29 if leap else 28, 31, 30, 31, 30, 31, 31, 30, 31, 30, 31][month - 1]`
from `next_recurrence_time`, as a function of the (already advanced) year
and the month. -/
def daysInMonth (y m : Nat) : Nat :=
  match m with
  | 1 => 31
  | 2 => if isLeap y then 29 else 28
  | 3 => 31
  | 4 => 30
  | 5 => 31
  | 6 => 30
  | 7 => 31
  | 8 => 31
  | 9 => 30
  | 10 => 31
  | 11 => 30
  | 12 => 31
  | _ => 0

/-- Validity of the field tuple: what `datetime.replace` accepts
(modulo the year bounds we abstract away). -/
def isValidDate (y m d : Nat) : Bool :=
  1 ≤ m && m ≤ 12 && 1 ≤ d && d ≤ daysInMonth y m

/-- A well-formed naive datetime value. -/
def ValidDT (dt : DateTime) : Prop :=
  1 ≤ dt.month ∧ dt.month ≤ 12 ∧ 1 ≤ dt.day ∧
    dt.day ≤ daysInMonth dt.year dt.month ∧ dt.tod < 86400

instance (dt : DateTime) : Decidable (ValidDT dt) := by
  unfold ValidDT; infer_instance

/-- Calendar-day successor: `dt + timedelta(days=1)` on a naive datetime. -/
def nextDay (dt : DateTime) : DateTime :=
  if dt.day < daysInMonth dt.year dt.month then
    { dt with day := dt.day + 1 }
  else if dt.month < 12 then
    { dt with month := dt.month + 1, day := 1 }
  else
    { dt with year := dt.year + 1, month := 1, day := 1 }

/-- `dt + timedelta(days=n)` as the n-fold calendar-day successor. -/
def addDays (dt : DateTime) : Nat → DateTime
  | 0 => dt
  | n + 1 => addDays (nextDay dt) n

/-- Calendar-day predecessor (used only for borrow in UTC-offset
subtraction). -/
def prevDay (dt : DateTime) : DateTime :=
  if 1 < dt.day then
    { dt with day := dt.day - 1 }
  else if 1 < dt.month then
    { dt with month := dt.month - 1,
              day := daysInMonth dt.year (dt.month - 1) }
  else
    { dt with year := dt.year - 1, month := 12, day := 31 }

/-- `TIMEZONE.localize(dt).astimezone(UTC).replace(tzinfo=None)` for a zone
whose UTC offset at local time `dt` is `offMin` minutes: subtract the
offset, borrowing into the calendar day when the time-of-day under- or
overflows (real zone offsets are well within one day). -/
def tzShift (dt : DateTime) (offMin : Int) : DateTime :=
  let total : Int := (dt.tod : Int) - offMin * 60
  if 0 ≤ total ∧ total < 86400 then
    { dt with tod := total.toNat }
  else if total < 0 then
    { prevDay dt with tod := (total + 86400).toNat }
  else
    { nextDay dt with tod := (total - 86400).toNat }

/-- `scheduler_logic.next_recurrence_time(original, recurrence, last)`.
The `try: last.replace(...) except ValueError:` pair becomes a test of
`isValidDate` selecting the normal or the fallback result. -/
def next_recurrence_time (original : DateTime) (recurrence : String)
    (last : DateTime) : Option DateTime :=
  if recurrence = "once" then none
  else if recurrence = "daily" then some (addDays last 1)
  else if recurrence = "weekly" then some (addDays last 7)
  else if recurrence = "monthly" then
    let year := last.year + last.month / 12
    let month := last.month % 12 + 1
    let day := min last.day (daysInMonth year month)
    if isValidDate year month day then
      some { last with year := year, month := month, day := day }
    else
      some (addDays { last with year := year, month := month, day := 1 } 31)
  else none

/-- The full validation performed by `datetime.replace`: the field ranges
of `isValidDate` plus CPython's `MINYEAR <= year <= MAXYEAR`
(1 to 9999) check. -/
def pythonValidDate (y m d : Nat) : Bool :=
  1 ≤ y && y ≤ 9999 && isValidDate y m d

/-- A datetime representable as a CPython `datetime.datetime` value:
well-formed fields with the year inside `MINYEAR..MAXYEAR`. -/
def PyValidDT (dt : DateTime) : Prop :=
  ValidDT dt ∧ 1 ≤ dt.year ∧ dt.year ≤ 9999

instance (dt : DateTime) : Decidable (PyValidDT dt) := by
  unfold PyValidDT; infer_instance

/-- The monthly branch of `next_recurrence_time` with `datetime.replace`'s
year-range check restored: `try: last.replace(year, month, day)` succeeds
only when the triple passes the full validation; on `ValueError` the
fallback calls `replace(year, month, 1)`, which is itself validated the
same way — `none` models the fallback's own `ValueError` escaping the
function uncaught. -/
def next_monthly_checked (last : DateTime) : Option DateTime :=
  let year := last.year + last.month / 12
  let month := last.month % 12 + 1
  let day := min last.day (daysInMonth year month)
  if pythonValidDate year month day then
    some { last with year := year, month := month, day := day }
  else if pythonValidDate year month 1 then
    some (addDays { last with year := year, month := month, day := 1 } 31)
  else none

/-- From the spec's words: `monthly` advances the month by one, rolling the
year over from December to January. -/
def specNextMonth (y m : Nat) : Nat × Nat :=
  if m = 12 then (y + 1, 1) else (y, m + 1)

/-- From the spec's words: the last valid day of a month, where February
has 29 days exactly when the year is divisible by 4 and (not divisible by
100 or divisible by 400), and otherwise 28. -/
def specLastValidDay (y m : Nat) : Nat :=
  if m = 2 then
    (if y % 4 = 0 ∧ (y % 100 ≠ 0 ∨ y % 400 = 0) then 29 else 28)
  else if m = 4 ∨ m = 6 ∨ m = 9 ∨ m = 11 then 30
  else 31

/-- One row of the `scheduled_messages` table. -/
structure ScheduledTask where
  id : Nat
  chat_id : Int
  text : Option String
  photo_file_id : Option String
  document_file_id : Option String
  caption : Option String
  publish_at : DateTime
  original_publish_at : DateTime
  recurrence : String
  pin : Bool
  notify : Bool
  delete_after_days : Option Nat
  active : Bool
  created_at : DateTime
  max_end_date : Option DateTime
  task_hash : Option String
deriving DecidableEq, Repr

abbrev Store := List ScheduledTask

/-- `add_scheduled_message(data)`: INSERT of a fresh row with
`original_publish_at = publish_at`, `active = 1`, `created_at = now` and
`max_end_date = now + 365 days`; `now` is the wall clock passed in
explicitly. AUTOINCREMENT is modelled as max-id-so-far plus one. -/
def add_scheduled_message (s : Store) (now : DateTime) (chat_id : Int)
    (text photo_file_id document_file_id caption : Option String)
    (publish_at : DateTime) (recurrence : String) (pin notify : Bool)
    (delete_after_days : Option Nat) : Store × Nat :=
  let msg_id := (s.map ScheduledTask.id).foldr Nat.max 0 + 1
  (s ++ [{ id := msg_id, chat_id := chat_id, text := text,
           photo_file_id := photo_file_id,
           document_file_id := document_file_id, caption := caption,
           publish_at := publish_at, original_publish_at := publish_at,
           recurrence := recurrence, pin := pin, notify := notify,
           delete_after_days := delete_after_days, active := true,
           created_at := now, max_end_date := some (addDays now 365),
           task_hash := none }], msg_id)

/-- `update_scheduled_message(...)`: UPDATE of every field except
`original_publish_at` and `active`, `WHERE id = ?`; refreshes
`max_end_date` to `now + 365 days`; returns `rowcount > 0`. -/
def update_scheduled_message (s : Store) (now : DateTime) (msg_id : Nat)
    (chat_id : Int) (text photo_file_id document_file_id caption : Option String)
    (publish_at : DateTime) (recurrence : String) (pin notify : Bool)
    (delete_after_days : Option Nat) : Store × Bool :=
  (s.map fun t =>
    if t.id = msg_id then
      { t with chat_id := chat_id, text := text,
               photo_file_id := photo_file_id,
               document_file_id := document_file_id, caption := caption,
               publish_at := publish_at, recurrence := recurrence,
               pin := pin, notify := notify,
               delete_after_days := delete_after_days,
               max_end_date := some (addDays now 365) }
    else t,
   s.any fun t => t.id == msg_id)

/-- `update_next_publish_time(msg_id, next_time_iso)`: UPDATE of
`publish_at` `WHERE id = ? AND active = 1`; returns `rowcount > 0`. -/
def update_next_publish_time (s : Store) (msg_id : Nat)
    (next_time : DateTime) : Store × Bool :=
  (s.map fun t =>
    if t.id = msg_id ∧ t.active then { t with publish_at := next_time }
    else t,
   s.any fun t => t.id == msg_id && t.active)

/-- `deactivate_message(msg_id)`: UPDATE `active = 0` `WHERE id = ?`;
returns `rowcount > 0`. -/
def deactivate_message (s : Store) (msg_id : Nat) : Store × Bool :=
  (s.map fun t => if t.id = msg_id then { t with active := false } else t,
   s.any fun t => t.id == msg_id)

def taskLe (a b : ScheduledTask) : Prop := DateTime.le a.publish_at b.publish_at

instance : DecidableRel taskLe :=
  fun a b => inferInstanceAs (Decidable (DateTime.le a.publish_at b.publish_at))

/-- `get_all_active_messages()`: SELECT of the active rows ordered by
`publish_at` ascending. -/
def get_all_active_messages (s : Store) : List ScheduledTask :=
  List.insertionSort taskLe (s.filter fun t => t.active)

/-- The invariant of §3 of the spec: `publish_at >= original_publish_at`. -/
def StoreInv (s : Store) : Prop :=
  ∀ t ∈ s, DateTime.le t.original_publish_at t.publish_at

instance (s : Store) : Decidable (StoreInv s) := by
  unfold StoreInv; infer_instance

/-- The chat transport: each operation either returns a value or raises
(modelled as `Except Unit`). -/
structure Gateway where
  sendPhoto : Except Unit Nat
  sendDocument : Except Unit Nat
  sendMessage : Except Unit Nat
  pinChatMessage : Nat → Except Unit Unit
  scheduleRemoval : Nat → Nat → Except Unit Unit

/-- The body of `publish_message`'s `try:` block: pick the send per
content kind, then pin when requested, then arm the delayed deletion, and
return the delivered message id; the first raise aborts the chain. -/
def publish_attempt (gw : Gateway) (chat_id : Int)
    (text photo_file_id document_file_id caption : Option String)
    (pin notify : Bool) (delete_after_days : Option Nat) :
    Except Unit Nat := do
  let msgid ← if photo_file_id.isSome then gw.sendPhoto
    else if document_file_id.isSome then gw.sendDocument
    else gw.sendMessage
  if pin then gw.pinChatMessage msgid
  match delete_after_days with
  | some d => if 0 < d then gw.scheduleRemoval msgid d else pure ()
  | none => pure ()
  pure msgid

/-- `publish_message`: the `try/except` wrapper — any raise inside the
attempt is logged and turned into `None`. -/
def publish_message (gw : Gateway) (chat_id : Int)
    (text photo_file_id document_file_id caption : Option String)
    (pin notify : Bool) (delete_after_days : Option Nat) : Option Nat :=
  match publish_attempt gw chat_id text photo_file_id document_file_id
      caption pin notify delete_after_days with
  | Except.ok m => some m
  | Except.error _ => none

/-- `publish_and_reschedule`: deliver (result discarded), then for a
non-once recurrence compute the next occurrence from the current
`publish_at` and persist `TIMEZONE.localize(next).astimezone(UTC)`
(the configured zone enters as its UTC-offset function `tzOffset`,
in minutes); a `once` task, or an exhausted recurrence, is deactivated. -/
def publish_and_reschedule (gw : Gateway) (tzOffset : DateTime → Int)
    (s : Store) (msg_id : Nat) (chat_id : Int)
    (text photo_file_id document_file_id caption : Option String)
    (recurrence : String) (pin notify : Bool)
    (delete_after_days : Option Nat) (current_publish_at : DateTime) :
    Store :=
  let _delivered := publish_message gw chat_id text photo_file_id
    document_file_id caption pin notify delete_after_days
  if recurrence ≠ "once" then
    match next_recurrence_time current_publish_at recurrence
        current_publish_at with
    | some next_time =>
        let next_utc := tzShift next_time (tzOffset next_time)
        (update_next_publish_time s msg_id next_utc).1
    | none => (deactivate_message s msg_id).1
  else
    (deactivate_message s msg_id).1

/-- `schedule_all_jobs(job_queue)`: `remove_all_jobs()` (the previous
timers are discarded), then one `run_once` timer per loaded row whose
`publish_at` is still in the future. A timer is the pair
(task id, fire instant). -/
def schedule_all_jobs (now : DateTime) (s : Store)
    (prevJobs : List (Nat × DateTime)) : List (Nat × DateTime) :=
  (get_all_active_messages s).filterMap fun t =>
    if DateTime.lt now t.publish_at then some (t.id, t.publish_at) else none

/-- A gateway whose send operations all raise (used as the C5 witness
input). -/
def failingGateway : Gateway :=
  { sendPhoto := Except.error (), sendDocument := Except.error (),
    sendMessage := Except.error (),
    pinChatMessage := fun _ => Except.ok (),
    scheduleRemoval := fun _ _ => Except.ok () }

/-- A gateway whose operations all succeed (C2 witness input). -/
def okGateway : Gateway :=
  { sendPhoto := Except.ok 7, sendDocument := Except.ok 7,
    sendMessage := Except.ok 7,
    pinChatMessage := fun _ => Except.ok (),
    scheduleRemoval := fun _ _ => Except.ok () }

/-- An active daily task due at 2025-06-01 12:00:00 (C2 inputs). -/
def c2DailyTask : ScheduledTask :=
  { id := 1, chat_id := -100, text := some "m", photo_file_id := none,
    document_file_id := none, caption := none,
    publish_at := ⟨2025, 6, 1, 43200⟩,
    original_publish_at := ⟨2025, 6, 1, 43200⟩,
    recurrence := "daily", pin := false, notify := true,
    delete_after_days := none, active := true,
    created_at := ⟨2025, 5, 1, 0⟩, max_end_date := none, task_hash := none }

/-- An inactive task used as the C6 witness input. -/
def c6InactiveTask : ScheduledTask :=
  { id := 1, chat_id := -100, text := some "t", photo_file_id := none,
    document_file_id := none, caption := none,
    publish_at := ⟨2025, 6, 1, 0⟩, original_publish_at := ⟨2025, 6, 1, 0⟩,
    recurrence := "daily", pin := false, notify := true,
    delete_after_days := none, active := false,
    created_at := ⟨2025, 5, 1, 0⟩, max_end_date := none, task_hash := none }

/-- An active but already-due task (C7 counterexample input). -/
def c7DueTask : ScheduledTask :=
  { id := 1, chat_id := -100, text := some "m", photo_file_id := none,
    document_file_id := none, caption := none,
    publish_at := ⟨2024, 12, 31, 0⟩,
    original_publish_at := ⟨2024, 12, 31, 0⟩,
    recurrence := "daily", pin := false, notify := true,
    delete_after_days := none, active := true,
    created_at := ⟨2024, 12, 1, 0⟩, max_end_date := none,
    task_hash := none }

/-- A one-row store built by `add_scheduled_message` (C8 inputs):
one task scheduled for 2025-06-01. -/
def c8Store : Store :=
  (add_scheduled_message [] ⟨2025, 5, 1, 0⟩ (-100) (some "x") none none
    none ⟨2025, 6, 1, 0⟩ "daily" false true none).1

/-! ### Lemmas and claim theorems -/

example : next_recurrence_time ⟨2025, 1, 31, 3600⟩ "monthly" ⟨2025, 1, 31, 3600⟩
    = some ⟨2025, 2, 28, 3600⟩ := by decide

example : next_recurrence_time ⟨2024, 1, 31, 0⟩ "monthly" ⟨2024, 1, 31, 0⟩
    = some ⟨2024, 2, 29, 0⟩ := by decide

example : next_recurrence_time ⟨2025, 3, 31, 0⟩ "monthly" ⟨2025, 3, 31, 0⟩
    = some ⟨2025, 4, 30, 0⟩ := by decide

example : next_recurrence_time ⟨2025, 12, 5, 0⟩ "monthly" ⟨2025, 12, 5, 0⟩
    = some ⟨2026, 1, 5, 0⟩ := by decide

example : next_recurrence_time ⟨2025, 1, 1, 0⟩ "daily" ⟨2025, 1, 1, 0⟩
    = some ⟨2025, 1, 2, 0⟩ := by decide

example : next_recurrence_time ⟨2025, 2, 26, 0⟩ "weekly" ⟨2025, 2, 26, 0⟩
    = some ⟨2025, 3, 5, 0⟩ := by decide

lemma DateTime.lt_trans {a b c : DateTime} (hab : DateTime.lt a b)
    (hbc : DateTime.lt b c) : DateTime.lt a c := by
  unfold DateTime.lt at *
  omega

lemma daysInMonth_pos {y m : Nat} (h1 : 1 ≤ m) (h2 : m ≤ 12) :
    1 ≤ daysInMonth y m := by
  interval_cases m <;> simp [daysInMonth] <;> split <;> omega

lemma nextDay_lt (dt : DateTime) : DateTime.lt dt (nextDay dt) := by
  unfold nextDay
  split
  · simp [DateTime.lt]
  · split <;> simp [DateTime.lt]

lemma addDays_lt (dt : DateTime) (n : Nat) (h : 0 < n) :
    DateTime.lt dt (addDays dt n) := by
  induction n generalizing dt with
  | zero => omega
  | succ k ih =>
    show DateTime.lt dt (addDays (nextDay dt) k)
    rcases Nat.eq_zero_or_pos k with hk | hk
    · subst hk; exact nextDay_lt dt
    · exact DateTime.lt_trans (nextDay_lt dt) (ih (nextDay dt) hk)

lemma nextDay_valid {dt : DateTime} (h : ValidDT dt) : ValidDT (nextDay dt) := by
  obtain ⟨h1, h2, h3, h4, h5⟩ := h
  by_cases hd : dt.day < daysInMonth dt.year dt.month
  · rw [nextDay, if_pos hd]
    exact ⟨h1, h2, Nat.le_succ_of_le h3, hd, h5⟩
  · rw [nextDay, if_neg hd]
    by_cases hm : dt.month < 12
    · rw [if_pos hm]
      refine ⟨Nat.le_succ_of_le h1, hm, le_refl 1, ?_, h5⟩
      exact @daysInMonth_pos dt.year (dt.month + 1) (by omega) (by omega)
    · rw [if_neg hm]
      exact ⟨le_refl 1, (by norm_num : (1:Nat) ≤ 12), le_refl 1,
        by simp [daysInMonth], h5⟩

lemma addDays_valid {dt : DateTime} (n : Nat) (h : ValidDT dt) :
    ValidDT (addDays dt n) := by
  induction n generalizing dt with
  | zero => exact h
  | succ k ih => exact ih (nextDay_valid h)

lemma isLeap_iff {y : Nat} :
    isLeap y = true ↔ y % 4 = 0 ∧ (y % 100 ≠ 0 ∨ y % 400 = 0) := by
  simp only [isLeap, Bool.or_eq_true, Bool.and_eq_true, beq_iff_eq,
    bne_iff_ne, ne_eq]
  omega

lemma daysInMonth_eq_spec {y m : Nat} (h1 : 1 ≤ m) (h2 : m ≤ 12) :
    daysInMonth y m = specLastValidDay y m := by
  interval_cases m <;> simp only [daysInMonth, specLastValidDay] <;>
    norm_num
  by_cases hl : y % 4 = 0 ∧ (y % 100 ≠ 0 ∨ y % 400 = 0)
  · rw [if_pos (isLeap_iff.mpr hl), if_pos hl]
  · rw [if_neg (fun hc => hl (isLeap_iff.mp hc)), if_neg hl]

/-- The code's advanced (year, month) pair coincides with the spec's. -/
lemma codeNextMonth_eq_spec {y m : Nat} (h1 : 1 ≤ m) (h2 : m ≤ 12) :
    (y + m / 12, m % 12 + 1) = specNextMonth y m := by
  unfold specNextMonth
  by_cases hm : m = 12
  · subst hm; norm_num
  · rw [if_neg hm]
    have hlt : m < 12 := by omega
    rw [Nat.div_eq_of_lt hlt, Nat.mod_eq_of_lt hlt, Nat.add_zero]

/-- The clamped monthly triple is a valid date (shared by C1 and C9). -/
lemma monthlyTripleValid {last : DateTime} (h : ValidDT last) :
    isValidDate (last.year + last.month / 12) (last.month % 12 + 1)
      (min last.day (daysInMonth (last.year + last.month / 12)
        (last.month % 12 + 1))) = true := by
  obtain ⟨h1, h2, h3, h4, h5⟩ := h
  have hm1 : 1 ≤ last.month % 12 + 1 := by omega
  have hm2 : last.month % 12 + 1 ≤ 12 := by omega
  have hdim : 1 ≤ daysInMonth (last.year + last.month / 12)
      (last.month % 12 + 1) := daysInMonth_pos hm1 hm2
  simp only [isValidDate, Bool.and_eq_true, decide_eq_true_eq]
  omega

lemma tzShift_zero {dt : DateTime} (h : ValidDT dt) : tzShift dt 0 = dt := by
  obtain ⟨_, _, _, _, h5⟩ := h
  unfold tzShift
  rw [if_pos]
  · simp
  · constructor <;> simp <;> omega

lemma monthly_advance_lt (last : DateTime) (d : Nat) :
    DateTime.lt last
      ⟨last.year + last.month / 12, last.month % 12 + 1, d, last.tod⟩ := by
  simp only [DateTime.lt]
  omega

lemma next_recurrence_time_daily (original last : DateTime) :
    next_recurrence_time original "daily" last = some (addDays last 1) := rfl

lemma next_recurrence_time_weekly (original last : DateTime) :
    next_recurrence_time original "weekly" last = some (addDays last 7) := rfl

lemma next_recurrence_time_monthly (original last : DateTime) :
    next_recurrence_time original "monthly" last =
      if isValidDate (last.year + last.month / 12) (last.month % 12 + 1)
          (min last.day (daysInMonth (last.year + last.month / 12)
            (last.month % 12 + 1))) then
        some ⟨last.year + last.month / 12, last.month % 12 + 1,
              min last.day (daysInMonth (last.year + last.month / 12)
                (last.month % 12 + 1)), last.tod⟩
      else
        some (addDays
          ⟨last.year + last.month / 12, last.month % 12 + 1, 1, last.tod⟩ 31) :=
  rfl

lemma map_eq_self_of_mem {α : Type} {f : α → α} {l : List α}
    (h : ∀ a ∈ l, f a = a) : l.map f = l := by
  induction l with
  | nil => rfl
  | cons x xs ih =>
    rw [List.map_cons, h x (List.mem_cons_self x xs),
      ih fun a ha => h a (List.mem_cons_of_mem x ha)]

lemma filterMap_future_eq (now : DateTime) (l : List ScheduledTask) :
    (l.filterMap fun t =>
        if DateTime.lt now t.publish_at then some (t.id, t.publish_at)
        else none)
      = (l.filter fun t => decide (DateTime.lt now t.publish_at)).map
          fun t => (t.id, t.publish_at) := by
  induction l with
  | nil => rfl
  | cons x xs ih =>
    by_cases hx : DateTime.lt now x.publish_at
    · simp [List.filterMap_cons, List.filter_cons, hx, ih]
    · simp [List.filterMap_cons, List.filter_cons, hx, ih]

/-- C1: `next_recurrence_time(·, monthly, last)` advances the month by one
(rolling the year over from December to January) and sets the day-of-month
to the minimum of `last`'s day and the last valid day of the target month,
with February 29 days exactly in leap years of the target year and the
time-of-day unchanged. -/
theorem claim_C1_monthly_clamp (original last : DateTime) (h : ValidDT last) :
    next_recurrence_time original "monthly" last =
      some ⟨(specNextMonth last.year last.month).1,
            (specNextMonth last.year last.month).2,
            min last.day
              (specLastValidDay (specNextMonth last.year last.month).1
                (specNextMonth last.year last.month).2),
            last.tod⟩ := by
  have hys : last.year + last.month / 12 = (specNextMonth last.year last.month).1 :=
    congrArg Prod.fst (codeNextMonth_eq_spec h.1 h.2.1)
  have hms : last.month % 12 + 1 = (specNextMonth last.year last.month).2 :=
    congrArg Prod.snd (codeNextMonth_eq_spec h.1 h.2.1)
  have hm1 : 1 ≤ last.month % 12 + 1 := by omega
  have hm2 : last.month % 12 + 1 ≤ 12 := by omega
  have hd : daysInMonth (last.year + last.month / 12) (last.month % 12 + 1)
      = specLastValidDay (specNextMonth last.year last.month).1
          (specNextMonth last.year last.month).2 := by
    rw [daysInMonth_eq_spec hm1 hm2, hys, hms]
  rw [next_recurrence_time_monthly, if_pos (monthlyTripleValid h), hd, hys, hms]

/-- C1 witness: the spec's worked examples, Jan 31 2025 → Feb 28 2025,
Jan 31 2024 → Feb 29 2024 (leap), Mar 31 2025 → Apr 30 2025, each obtained
from the general theorem at a concrete input. -/
theorem claim_C1_monthly_clamp_witness :
    ValidDT ⟨2025, 1, 31, 3600⟩ ∧
    next_recurrence_time ⟨2025, 1, 31, 3600⟩ "monthly" ⟨2025, 1, 31, 3600⟩
      = some ⟨2025, 2, 28, 3600⟩ ∧
    next_recurrence_time ⟨2024, 1, 31, 0⟩ "monthly" ⟨2024, 1, 31, 0⟩
      = some ⟨2024, 2, 29, 0⟩ ∧
    next_recurrence_time ⟨2025, 3, 31, 0⟩ "monthly" ⟨2025, 3, 31, 0⟩
      = some ⟨2025, 4, 30, 0⟩ :=
  ⟨by decide,
   (claim_C1_monthly_clamp ⟨2025, 1, 31, 3600⟩ ⟨2025, 1, 31, 3600⟩
      (by decide)).trans (by decide),
   (claim_C1_monthly_clamp ⟨2024, 1, 31, 0⟩ ⟨2024, 1, 31, 0⟩
      (by decide)).trans (by decide),
   (claim_C1_monthly_clamp ⟨2025, 3, 31, 0⟩ ⟨2025, 3, 31, 0⟩
      (by decide)).trans (by decide)⟩

/-- C3: for daily, weekly and monthly, `next_recurrence_time` always
returns `some` instant strictly greater than its input instant. -/
theorem claim_C3_strictly_increasing (original last : DateTime) :
    (∃ n, next_recurrence_time original "daily" last = some n
       ∧ DateTime.lt last n) ∧
    (∃ n, next_recurrence_time original "weekly" last = some n
       ∧ DateTime.lt last n) ∧
    (∃ n, next_recurrence_time original "monthly" last = some n
       ∧ DateTime.lt last n) := by
  refine ⟨⟨addDays last 1, next_recurrence_time_daily original last,
      addDays_lt last 1 (by norm_num)⟩,
    ⟨addDays last 7, next_recurrence_time_weekly original last,
      addDays_lt last 7 (by norm_num)⟩, ?_⟩
  rw [next_recurrence_time_monthly]
  by_cases hv : isValidDate (last.year + last.month / 12)
      (last.month % 12 + 1)
      (min last.day (daysInMonth (last.year + last.month / 12)
        (last.month % 12 + 1))) = true
  · rw [if_pos hv]
    exact ⟨_, rfl, monthly_advance_lt last _⟩
  · rw [if_neg hv]
    refine ⟨_, rfl, DateTime.lt_trans (monthly_advance_lt last 1) ?_⟩
    exact addDays_lt _ 31 (by norm_num)

lemma next_monthly_checked_eq (last : DateTime) :
    next_monthly_checked last =
      if pythonValidDate (last.year + last.month / 12)
          (last.month % 12 + 1)
          (min last.day (daysInMonth (last.year + last.month / 12)
            (last.month % 12 + 1))) then
        some ⟨last.year + last.month / 12, last.month % 12 + 1,
              min last.day (daysInMonth (last.year + last.month / 12)
                (last.month % 12 + 1)), last.tod⟩
      else if pythonValidDate (last.year + last.month / 12)
          (last.month % 12 + 1) 1 then
        some (addDays ⟨last.year + last.month / 12, last.month % 12 + 1,
          1, last.tod⟩ 31)
      else none :=
  rfl

/-- C9 counterexample: 9999-12-31 is a representable CPython datetime, but
the clamped monthly triple (year 10000) fails `datetime.replace`'s
year-range check, so the construction raises and the fallback branch is
entered — and its own `replace` (year 10000 again) raises as well, the
error escaping the function. The claim's "never raises, fallback
unreachable" is therefore false as stated. -/
theorem claim_C9_fallback_counterexample :
    PyValidDT ⟨9999, 12, 31, 0⟩ ∧
    pythonValidDate (9999 + 12 / 12) (12 % 12 + 1)
      (min 31 (daysInMonth (9999 + 12 / 12) (12 % 12 + 1))) = false ∧
    next_monthly_checked ⟨9999, 12, 31, 0⟩ = none := by decide

/-- C9 (amended): for every representable input datetime except those in
December of year 9999 (MAXYEAR), the clamped monthly triple passes
`datetime.replace`'s full validation — so the construction never raises,
the fallback is unreachable, and the year-checked step agrees with
`next_recurrence_time`'s monthly branch. -/
theorem claim_C9_no_fallback_below_maxyear (original last : DateTime)
    (h : PyValidDT last) (hne : ¬(last.year = 9999 ∧ last.month = 12)) :
    pythonValidDate (last.year + last.month / 12) (last.month % 12 + 1)
      (min last.day (daysInMonth (last.year + last.month / 12)
        (last.month % 12 + 1))) = true ∧
    next_monthly_checked last =
      some ⟨last.year + last.month / 12, last.month % 12 + 1,
            min last.day (daysInMonth (last.year + last.month / 12)
              (last.month % 12 + 1)), last.tod⟩ ∧
    next_monthly_checked last
      = next_recurrence_time original "monthly" last := by
  obtain ⟨hv, hy1, hy2⟩ := h
  have hm1 : 1 ≤ last.month := hv.1
  have hm2 : last.month ≤ 12 := hv.2.1
  have hiv := monthlyTripleValid hv
  have hpv : pythonValidDate (last.year + last.month / 12)
      (last.month % 12 + 1)
      (min last.day (daysInMonth (last.year + last.month / 12)
        (last.month % 12 + 1))) = true := by
    simp only [pythonValidDate, Bool.and_eq_true, decide_eq_true_eq]
    exact ⟨⟨by omega, by omega⟩, hiv⟩
  refine ⟨hpv, ?_, ?_⟩
  · rw [next_monthly_checked_eq, if_pos hpv]
  · rw [next_monthly_checked_eq, if_pos hpv,
      next_recurrence_time_monthly, if_pos hiv]

/-- C9 witness: the amended theorem applied at 31 January 2025 (the
construction succeeds, matching `next_recurrence_time`'s Feb 28 result). -/
theorem claim_C9_no_fallback_below_maxyear_witness :
    PyValidDT ⟨2025, 1, 31, 0⟩ ∧
    ¬((2025:Nat) = 9999 ∧ (1:Nat) = 12) ∧
    next_monthly_checked ⟨2025, 1, 31, 0⟩ = some ⟨2025, 2, 28, 0⟩ ∧
    next_monthly_checked ⟨2025, 1, 31, 0⟩
      = next_recurrence_time ⟨2025, 1, 31, 0⟩ "monthly" ⟨2025, 1, 31, 0⟩ :=
  ⟨by decide, by decide,
   ((claim_C9_no_fallback_below_maxyear ⟨2025, 1, 31, 0⟩ ⟨2025, 1, 31, 0⟩
      (by decide) (by decide)).2.1).trans (by decide),
   (claim_C9_no_fallback_below_maxyear ⟨2025, 1, 31, 0⟩ ⟨2025, 1, 31, 0⟩
      (by decide) (by decide)).2.2⟩

/-- C10: `next_recurrence_time` never reads its `original` (anchor)
argument: any two anchors give the same result. -/
theorem claim_C10_anchor_independent (o1 o2 : DateTime) (recurrence : String)
    (last : DateTime) :
    next_recurrence_time o1 recurrence last
      = next_recurrence_time o2 recurrence last := rfl

/-- C4: a `once` task is deactivated by `publish_and_reschedule` whatever
the delivery gateway does (success or any raise), and its `publish_at` is
never advanced: the whole effect on the store is `active := false` on the
rows with this id. -/
theorem claim_C4_once_retires (gw : Gateway) (tzOffset : DateTime → Int)
    (s : Store) (msg_id : Nat) (chat_id : Int)
    (text photo_file_id document_file_id caption : Option String)
    (pin notify : Bool) (delete_after_days : Option Nat)
    (current_publish_at : DateTime) :
    publish_and_reschedule gw tzOffset s msg_id chat_id text photo_file_id
        document_file_id caption "once" pin notify delete_after_days
        current_publish_at
      = s.map fun t => if t.id = msg_id then { t with active := false }
          else t := rfl

/-- C5: a raise anywhere inside the delivery attempt is swallowed by
`publish_message` (it returns `None` rather than propagating), and the
store transition performed by `publish_and_reschedule` does not depend on
the gateway's behaviour at all. -/
theorem claim_C5_failures_swallowed :
    (∀ (gw : Gateway) (chat_id : Int)
        (text photo_file_id document_file_id caption : Option String)
        (pin notify : Bool) (delete_after_days : Option Nat) (e : Unit),
      publish_attempt gw chat_id text photo_file_id document_file_id caption
          pin notify delete_after_days = Except.error e →
      publish_message gw chat_id text photo_file_id document_file_id caption
          pin notify delete_after_days = none) ∧
    (∀ (gw1 gw2 : Gateway) (tzOffset : DateTime → Int) (s : Store)
        (msg_id : Nat) (chat_id : Int)
        (text photo_file_id document_file_id caption : Option String)
        (recurrence : String) (pin notify : Bool)
        (delete_after_days : Option Nat) (current_publish_at : DateTime),
      publish_and_reschedule gw1 tzOffset s msg_id chat_id text
          photo_file_id document_file_id caption recurrence pin notify
          delete_after_days current_publish_at
        = publish_and_reschedule gw2 tzOffset s msg_id chat_id text
            photo_file_id document_file_id caption recurrence pin notify
            delete_after_days current_publish_at) := by
  constructor
  · intro gw chat_id text photo doc caption pin notify dd e h
    unfold publish_message
    rw [h]
  · intro gw1 gw2 tzOffset s msg_id chat_id text photo doc caption
      recurrence pin notify dd current
    rfl

/-- C5 witness: with a raising transport, the attempt errors and
`publish_message` returns `None`, by the theorem. -/
theorem claim_C5_failures_swallowed_witness :
    publish_attempt failingGateway 0 (some "hi") none none none false true
        none = Except.error () ∧
    publish_message failingGateway 0 (some "hi") none none none false true
        none = none :=
  ⟨rfl, claim_C5_failures_swallowed.1 failingGateway 0 (some "hi") none none
    none false true none () rfl⟩

/-- C6: `update_next_publish_time` is a no-op returning `false` when no
active row carries the id (missing or deactivated task), and reports
`true` when an active row with the id exists. -/
theorem claim_C6_conditional_update (s : Store) (msg_id : Nat)
    (next_time : DateTime) :
    ((∀ t ∈ s, t.id = msg_id → t.active = false) →
      update_next_publish_time s msg_id next_time = (s, false)) ∧
    (∀ t ∈ s, t.id = msg_id → t.active = true →
      (update_next_publish_time s msg_id next_time).2 = true) := by
  constructor
  · intro h
    unfold update_next_publish_time
    refine Prod.ext ?_ ?_
    · show s.map _ = s
      refine map_eq_self_of_mem ?_
      intro t ht
      rw [if_neg]
      rintro ⟨hid, hact⟩
      rw [h t ht hid] at hact
      exact Bool.false_ne_true hact
    · show s.any _ = false
      rw [List.any_eq_false]
      intro t ht
      simp only [Bool.and_eq_true, beq_iff_eq]
      rintro ⟨hid, hact⟩
      rw [h t ht hid] at hact
      exact Bool.false_ne_true hact
  · intro t ht hid hact
    show s.any _ = true
    rw [List.any_eq_true]
    exact ⟨t, ht, by simp [hid, hact]⟩

/-- C6 witness: on a store holding only a deactivated task with the
requested id, the update leaves the store unchanged and returns `false`,
by the theorem. -/
theorem claim_C6_conditional_update_witness :
    update_next_publish_time [c6InactiveTask] 1 ⟨2025, 6, 2, 0⟩
      = ([c6InactiveTask], false) :=
  (claim_C6_conditional_update [c6InactiveTask] 1 ⟨2025, 6, 2, 0⟩).1
    (by decide)

/-- C2: for a `daily` task due at instant `T`, `publish_and_reschedule`
persists `tzShift (T + 1 day) offset` — exactly `T + 1 day` when the
configured timezone offset is zero (the default `TIMEZONE=UTC`) — on the
active rows with the task's id, leaving `active` and
`original_publish_at` untouched. -/
theorem claim_C2_daily_advance (gw : Gateway) (s : Store) (msg_id : Nat)
    (chat_id : Int)
    (text photo_file_id document_file_id caption : Option String)
    (pin notify : Bool) (delete_after_days : Option Nat) (T : DateTime)
    (h : ValidDT T) :
    publish_and_reschedule gw (fun _ => 0) s msg_id chat_id text
        photo_file_id document_file_id caption "daily" pin notify
        delete_after_days T
      = (s.map fun t => if t.id = msg_id ∧ t.active then
            { t with publish_at := addDays T 1 } else t) ∧
    ∀ tzOffset : DateTime → Int,
      publish_and_reschedule gw tzOffset s msg_id chat_id text
          photo_file_id document_file_id caption "daily" pin notify
          delete_after_days T
        = (s.map fun t => if t.id = msg_id ∧ t.active then
              { t with publish_at :=
                  tzShift (addDays T 1) (tzOffset (addDays T 1)) } else t) := by
  have hgen : ∀ tzOffset : DateTime → Int,
      publish_and_reschedule gw tzOffset s msg_id chat_id text
          photo_file_id document_file_id caption "daily" pin notify
          delete_after_days T
        = (s.map fun t => if t.id = msg_id ∧ t.active then
              { t with publish_at :=
                  tzShift (addDays T 1) (tzOffset (addDays T 1)) } else t) := fun _ => rfl
  refine ⟨?_, hgen⟩
  rw [hgen fun _ => 0]
  simp only [tzShift_zero (addDays_valid 1 h)]

/-- C2 witness: with the zero (UTC) offset the persisted `publish_at` is
exactly `T + 24h`, the task stays active and `original_publish_at` is
unchanged; obtained from the theorem at a concrete input. -/
theorem claim_C2_daily_advance_witness :
    ValidDT ⟨2025, 6, 1, 43200⟩ ∧
    publish_and_reschedule okGateway (fun _ => 0) [c2DailyTask] 1 (-100)
        (some "m") none none none "daily" false true none
        ⟨2025, 6, 1, 43200⟩
      = [{ c2DailyTask with publish_at := ⟨2025, 6, 2, 43200⟩ }] :=
  ⟨by decide,
   ((claim_C2_daily_advance okGateway [c2DailyTask] 1 (-100) (some "m")
      none none none false true none ⟨2025, 6, 1, 43200⟩
      (by decide)).1).trans (by decide)⟩

/-- C2 counterexample: with a configured timezone at UTC+3 (offset 180
minutes, e.g. Europe/Moscow), the persisted `publish_at` is
`T + 24h - 3h`, not the flat `T + 24h` the claim states for every task. -/
theorem claim_C2_daily_advance_counterexample :
    publish_and_reschedule okGateway (fun _ => 180) [c2DailyTask] 1 (-100)
        (some "m") none none none "daily" false true none
        ⟨2025, 6, 1, 43200⟩
      = [{ c2DailyTask with publish_at := ⟨2025, 6, 2, 32400⟩ }] ∧
    ¬ publish_and_reschedule okGateway (fun _ => 180) [c2DailyTask] 1 (-100)
        (some "m") none none none "daily" false true none
        ⟨2025, 6, 1, 43200⟩
      = [{ c2DailyTask with
            publish_at := addDays ⟨2025, 6, 1, 43200⟩ 1 }] :=
  ⟨by decide, by decide⟩

/-- C8 (amended): creation establishes `publish_at >= original_publish_at`
(they start equal), and `update_next_publish_time` preserves it whenever
the new instant is at least the original of the addressed rows (as it is
for instants produced by `next_recurrence_time` from the current
`publish_at`); `update_scheduled_message` does not preserve it in
general — see the counterexample. -/
theorem claim_C8_invariant_amended :
    (∀ (s : Store) (now : DateTime) (chat_id : Int)
        (text photo_file_id document_file_id caption : Option String)
        (publish_at : DateTime) (recurrence : String) (pin notify : Bool)
        (delete_after_days : Option Nat),
      StoreInv s →
      StoreInv (add_scheduled_message s now chat_id text photo_file_id
          document_file_id caption publish_at recurrence pin notify
          delete_after_days).1) ∧
    (∀ (s : Store) (msg_id : Nat) (next_time : DateTime),
      StoreInv s →
      (∀ t ∈ s, t.id = msg_id →
        DateTime.le t.original_publish_at next_time) →
      StoreInv (update_next_publish_time s msg_id next_time).1) := by
  constructor
  · intro s now chat_id text photo doc caption pub rec pin ntf dd hinv t ht
    rcases List.mem_append.mp ht with hl | hr
    · exact hinv t hl
    · rw [List.mem_singleton.mp hr]
      exact Or.inr rfl
  · intro s msg_id next_time hinv hbound t' ht'
    rcases List.mem_map.mp ht' with ⟨t, ht, rfl⟩
    by_cases hc : t.id = msg_id ∧ t.active = true
    · rw [if_pos hc]
      exact hbound t ht hc.1
    · rw [if_neg hc]
      exact hinv t ht

/-- C8 witness: the amended theorem applied at concrete inputs — creation
establishes the invariant and a forward `update_next_publish_time`
preserves it. -/
theorem claim_C8_invariant_amended_witness :
    StoreInv c8Store ∧
    StoreInv (update_next_publish_time c8Store 1 ⟨2025, 6, 2, 0⟩).1 :=
  ⟨claim_C8_invariant_amended.1 [] ⟨2025, 5, 1, 0⟩ (-100) (some "x") none
     none none ⟨2025, 6, 1, 0⟩ "daily" false true none (by decide),
   claim_C8_invariant_amended.2 c8Store 1 ⟨2025, 6, 2, 0⟩ (by decide)
     (by decide)⟩

/-- C8 counterexample: `update_scheduled_message` accepts an arbitrary new
`publish_at` and never touches `original_publish_at`, so rescheduling the
task of `c8Store` (original 2025-06-01) to 2025-01-01 breaks the
invariant, refuting "every subsequent mutation preserves it". -/
theorem claim_C8_invariant_counterexample :
    StoreInv c8Store ∧
    ¬ StoreInv (update_scheduled_message c8Store ⟨2025, 5, 2, 0⟩ 1 (-100)
        (some "x") none none none ⟨2025, 1, 1, 0⟩ "daily" false true
        none).1 :=
  ⟨by decide, by decide⟩
